import Mathlib

/-!
Verification of the calculation-orchestration and CRUD behaviour of
src/app/blueprints/api/views.py (web backend for seismic risk assessment).

The single source file defines Flask route handlers over an ORM session and a
remote calculation engine.  We embed the handlers shallowly:

  * The ORM tables become lists of records in a `DB` structure.  The ORM
    record classes themselves live in the external `datamodel` package which
    is not part of this repository snapshot, so the record structures below
    are modelled from the spec (section 3, relationships only) with exactly
    the fields that views.py reads or writes.
  * Remote HTTP interaction is embedded as an environment `RemoteEnv` that
    fixes the responses of the two job submissions and, for each job, the
    stream of status strings returned by successive GET status requests
    (the i-th GET for a job returns element i of its stream).
  * The run handler `post_calculation_run` and the helper
    `waitAndFetchResults` are embedded as functions producing the ordered
    list of observable events of one execution (remote calls, the database
    write of the LossCalculation record, the result import, and the HTTP
    response).  The unbounded polling loops receive explicit fuel and the
    whole execution returns `none` when the fuel is exhausted (or when a
    database lookup yields no record, which in the source raises).
  * File generation (create_exposure_xml and friends, in the external utils
    module) only produces request payloads, which no claim inspects; the
    submission events therefore carry only the fields claims refer to
    (the hazard_job_id form field and the shakemap path of phase 2).

All definitions are executable and follow the source line by line; the
comments cite line numbers of views.py.
-/

/-- Modelled from the spec: the `datamodel` package (external to this
repository) defines AssetCollection; views.py reads `_oid` and the record is
otherwise opaque payload, represented by `name`. -/
structure AssetCollection where
  _oid : Nat
  name : String
deriving DecidableEq, Repr

/-- Modelled from the spec: an Asset belongs to one AssetCollection and one
Site (views.py lines 51-56 join on these foreign keys). -/
structure Asset where
  _oid : Nat
  _assetcollection_oid : Nat
  _site_oid : Nat
deriving DecidableEq, Repr

/-- Modelled from the spec: a VulnerabilityModel with its loss category
(views.py line 400 filters on `losscategory`). -/
structure VulnerabilityModel where
  _oid : Nat
  losscategory : String
deriving DecidableEq, Repr

/-- Modelled from the spec: a VulnerabilityFunction belongs to one
VulnerabilityModel (views.py lines 166-169 count them per model). -/
structure VulnerabilityFunction where
  _oid : Nat
  _vulnerabilitymodel_oid : Nat
deriving DecidableEq, Repr

/-- Modelled from the spec: a LossModel references one AssetCollection
(views.py line 395-396 reads `_assetcollection_oid`). -/
structure LossModel where
  _oid : Nat
  _assetcollection_oid : Nat
deriving DecidableEq, Repr

/-- Modelled from the spec: a LossConfig references one LossModel and fixes
the loss category and aggregation key (views.py lines 392-394, 411-413,
462-467). -/
structure LossConfig where
  _oid : Nat
  losscategory : String
  aggregateBy : Option String
  _lossmodel_oid : Nat
deriving DecidableEq, Repr

/-- The LossCalculation record exactly as constructed at views.py lines
462-468 (the timestamp field is wall-clock time and is omitted; no claim
mentions it). -/
structure LossCalculationRec where
  shakemapid_resourceid : String
  _lossmodel_oid : Nat
  losscategory : String
  aggregateBy : Option String
deriving DecidableEq, Repr

/-- The relational state seen by the handlers: one list per table, plus the
many-to-many association table between VulnerabilityModel and LossModel. -/
structure DB where
  assetcollections : List AssetCollection
  assets : List Asset
  vulnerabilitymodels : List VulnerabilityModel
  vulnerabilityfunctions : List VulnerabilityFunction
  lossmodels : List LossModel
  lossconfigs : List LossConfig
  losscalculations : List LossCalculationRec
  vmLossmodelLinks : List (Nat × Nat)
deriving Repr

/-- JSON-ish values appearing in the list-endpoint responses. -/
inductive DVal where
  | s (v : String)
  | n (v : Nat)
  | arr (v : List Nat)
  | null
deriving DecidableEq, Repr

/-- A serialized record: the association list produced by `_asdict` plus any
derived fields the endpoint appends. -/
abbrev Dict := List (String × DVal)

def optVal : Option String → DVal
  | none => DVal.null
  | some s => DVal.s s

/-- Modelled from the spec: `_asdict` of the external ORM base serializes the
column fields of the record. -/
def AssetCollection.asdict (ac : AssetCollection) : Dict :=
  [("_oid", DVal.n ac._oid), ("name", DVal.s ac.name)]

/-- Modelled from the spec: column fields of VulnerabilityModel. -/
def VulnerabilityModel.asdict (vm : VulnerabilityModel) : Dict :=
  [("_oid", DVal.n vm._oid), ("losscategory", DVal.s vm.losscategory)]

/-- Modelled from the spec: column fields of LossModel. -/
def LossModel.asdict (lm : LossModel) : Dict :=
  [("_oid", DVal.n lm._oid),
   ("_assetcollection_oid", DVal.n lm._assetcollection_oid)]

/-- Modelled from the spec: column fields of LossConfig. -/
def LossConfig.asdict (c : LossConfig) : Dict :=
  [("_oid", DVal.n c._oid), ("losscategory", DVal.s c.losscategory),
   ("aggregateBy", optVal c.aggregateBy),
   ("_lossmodel_oid", DVal.n c._lossmodel_oid)]

/-- Assets of one collection, as joined at views.py lines 51-56. -/
def assetsOf (db : DB) (acOid : Nat) : List Asset :=
  db.assets.filter (fun a => a._assetcollection_oid == acOid)

/-- Count of distinct assets of a collection (views.py line 52). -/
def assetsCount (db : DB) (ac : AssetCollection) : Nat :=
  (assetsOf db ac._oid).length

/-- Count of distinct sites reached from the assets of a collection
(views.py line 53; the Asset to Site join follows the `_site_oid` foreign
key, assumed valid as the upload endpoint guarantees). -/
def sitesCount (db : DB) (ac : AssetCollection) : Nat :=
  ((assetsOf db ac._oid).map (fun a => a._site_oid)).dedup.length

/-- Count of vulnerability functions of one model (views.py lines 166-169). -/
def functionsCount (db : DB) (vm : VulnerabilityModel) : Nat :=
  (db.vulnerabilityfunctions.filter
    (fun f => f._vulnerabilitymodel_oid == vm._oid)).length

/-- Count of loss calculations of one loss model (views.py lines 246-249). -/
def calculationsCount (db : DB) (lm : LossModel) : Nat :=
  (db.losscalculations.filter (fun c => c._lossmodel_oid == lm._oid)).length

/-- Sorted oids of the vulnerability models linked to one loss model
(views.py lines 256-257). -/
def linkedVmOids (db : DB) (lm : LossModel) : List Nat :=
  List.insertionSort (· ≤ ·)
    ((db.vmLossmodelLinks.filter (fun p => p.2 == lm._oid)).map (fun p => p.1))

/-- GET /assetcollection (views.py lines 31-67): every collection serialized
with the two derived count fields appended. -/
def get_exposure (db : DB) : List Dict :=
  db.assetcollections.map (fun ac =>
    ac.asdict ++ [("assets_count", DVal.n (assetsCount db ac)),
                  ("sites_count", DVal.n (sitesCount db ac))])

/-- POST /assetcollection (views.py lines 70-146): the uploaded files are
parsed by the external parsers module into the collection record and its
asset rows, which we take as the already-parsed inputs; the handler persists
them and returns `get_exposure()` on the updated state (line 146). -/
def post_exposure (db : DB) (ac : AssetCollection) (newAssets : List Asset) :
    DB × List Dict :=
  let db2 := { db with assetcollections := db.assetcollections ++ [ac],
                       assets := db.assets ++ newAssets }
  (db2, get_exposure db2)

/-- GET /vulnerabilitymodel (views.py lines 149-179). -/
def get_vulnerability (db : DB) : List Dict :=
  db.vulnerabilitymodels.map (fun vm =>
    vm.asdict ++ [("functions_count", DVal.n (functionsCount db vm))])

/-- POST /vulnerabilitymodel (views.py lines 182-224): persists the parsed
model and its functions, then returns `get_vulnerability()` (line 224). -/
def post_vulnerability (db : DB) (vm : VulnerabilityModel)
    (funcs : List VulnerabilityFunction) : DB × List Dict :=
  let db2 := { db with vulnerabilitymodels := db.vulnerabilitymodels ++ [vm],
                       vulnerabilityfunctions :=
                         db.vulnerabilityfunctions ++ funcs }
  (db2, get_vulnerability db2)

/-- GET /lossmodel (views.py lines 227-261). -/
def get_loss_model (db : DB) : List Dict :=
  db.lossmodels.map (fun lm =>
    lm.asdict ++ [("calculations_count", DVal.n (calculationsCount db lm)),
                  ("_vulnerabilitymodels_oids", DVal.arr (linkedVmOids db lm))])

/-- POST /lossmodel (views.py lines 264-322): persists the parsed loss model,
linking it to the vulnerability models whose oids appear in the submitted
id list and exist in the database (lines 311-315), and returns
`get_loss_model()` (line 322). -/
def post_loss_model (db : DB) (lm : LossModel) (vmIds : List Nat) :
    DB × List Dict :=
  let existing := vmIds.filter
    (fun i => db.vulnerabilitymodels.any (fun v => v._oid == i))
  let db2 := { db with lossmodels := db.lossmodels ++ [lm],
                       vmLossmodelLinks :=
                         db.vmLossmodelLinks ++
                           existing.map (fun i => (i, lm._oid)) }
  (db2, get_loss_model db2)

/-- GET /lossconfig (views.py lines 325-346): every config serialized, with
no derived field appended. -/
def get_loss_config (db : DB) : List Dict :=
  db.lossconfigs.map (fun c => c.asdict)

/-- POST /lossconfig (views.py lines 349-383): persists the config from the
JSON body and returns `get_loss_config()` (line 383). -/
def post_loss_config (db : DB) (cfg : LossConfig) : DB × List Dict :=
  let db2 := { db with lossconfigs := db.lossconfigs ++ [cfg] }
  (db2, get_loss_config db2)

/-- The config lookup of views.py line 392: `session.query(LossConfig).get(1)`,
a primary-key lookup of the record with oid 1. -/
def lossConfigUsed (db : DB) : Option LossConfig :=
  db.lossconfigs.find? (fun c => c._oid == 1)

/-- The vulnerability-model query of views.py lines 398-401: join
VulnerabilityModel to LossModel through the association table, filter on the
loss category, take the first row.  The query has no ORDER BY, so `first()`
is table order, which the list order embeds.  Note the join ranges over all
loss models: nothing restricts it to the loss model of the config. -/
def vmQuery (db : DB) (cat : String) : Option VulnerabilityModel :=
  (((db.vulnerabilitymodels.flatMap (fun vm =>
      db.lossmodels.filterMap (fun lm =>
        if db.vmLossmodelLinks.contains (vm._oid, lm._oid)
        then some (vm, lm) else none)))).filter
    (fun p => p.1.losscategory == cat)).head?.map Prod.fst

/-- Response of one POST to the remote /v1/calc/run endpoint: the `ok` flag
and the job_id of its JSON body. -/
structure SubmitResponse where
  ok : Bool
  job_id : Nat
deriving DecidableEq, Repr

/-- Body of the HTTP response the run handler produces: the empty JSON object
(line 434), the status JSON of the phase-1 job (line 444), or the JSON of the
phase-2 submission response (line 477). -/
inductive RespBody where
  | emptyJson
  | statusJson (status : String)
  | submitJson (r : SubmitResponse)
deriving DecidableEq, Repr

/-- One observable step of an execution of the run handler. -/
inductive Event where
  | submitJob (phase : Nat) (hazard_job_id : Option Nat)
      (shakemapFile : Option String)
  | statusRequest (jobId : Nat) (result : String)
  | persistLossCalculation (rec : LossCalculationRec)
  | importResults
  | httpRespond (status : Nat) (body : RespBody)
deriving DecidableEq, Repr

/-- The remote engine as the run handler observes it: the two submission
responses and, for each of the two jobs, the stream of status strings
returned by successive status requests. -/
structure RemoteEnv where
  submit1 : SubmitResponse
  statuses1 : Nat → String
  submit2 : SubmitResponse
  statuses2 : Nat → String

/-- The loop condition of views.py lines 437-438 and 496-497: a status is
terminal when it is complete or failed. -/
def isTerminal (s : String) : Bool :=
  s == "complete" || s == "failed"

/-- The polling loop (views.py lines 437-439 and 496-498): request the
status, stop when it is terminal, else sleep one second and repeat.  The
source loop is unbounded; the fuel argument caps the embedding, and the
result is the index of the status request on which the loop exited. -/
def pollLoop (statuses : Nat → String) : Nat → Nat → Option Nat
  | 0, _ => none
  | fuel + 1, i =>
    if isTerminal (statuses i) then some i
    else pollLoop statuses fuel (i + 1)

/-- The status-request events the polling loop issues when it exits on
request index k: one request per index 0..k. -/
def pollEvents (job : Nat) (statuses : Nat → String) (k : Nat) : List Event :=
  (List.range (k + 1)).map (fun i => Event.statusRequest job (statuses i))

/-- waitAndFetchResults (views.py lines 494-516): poll the phase-2 job until
terminal, issue one more status request, return (without importing) unless
that fresh status is complete, else extract the result rows and persist them
(the import event).  The MeanAssetLoss row contents come from the external
openquake Extractor and are not inspected by any claim. -/
def waitAndFetchResults (oqJobId : Nat) (statuses : Nat → String)
    (fuel : Nat) : Option (List Event) :=
  (pollLoop statuses fuel 0).bind (fun k =>
    if statuses (k + 1) ≠ "complete" then
      some (pollEvents oqJobId statuses k ++
        [Event.statusRequest oqJobId (statuses (k + 1))])
    else
      some (pollEvents oqJobId statuses k ++
        [Event.statusRequest oqJobId (statuses (k + 1)),
         Event.importResults]))

/-- POST /calculation/run (views.py lines 386-477), as the ordered event list
of one execution.  Database lookups that would raise on a missing record
(lines 392-401: config 1, its loss model, its asset collection, the
vulnerability-model query) yield `none`.  After the phase-1 submission
(line 425): on a non-ok response respond with the empty JSON object
(line 434); otherwise poll until terminal (lines 437-439), issue the fresh
status request of line 440, and if its status is not complete respond with
that status JSON (lines 443-444).  Otherwise submit phase 2 with the phase-1
job id as hazard_job_id and the shakemap file (lines 452-454) - a non-ok
phase-2 response only prints (lines 458-460) - persist the LossCalculation
record of lines 462-470, then run waitAndFetchResults: the source passes
`target=waitAndFetchResults(...)` to threading.Thread at line 473, which
calls the function synchronously in the request thread (the spawned thread
gets target None and runs nothing), so its events precede the HTTP response
of line 477. -/
def post_calculation_run (db : DB) (env : RemoteEnv) (shakemap : String)
    (fuel : Nat) : Option (List Event) :=
  (lossConfigUsed db).bind (fun cfg =>
  (db.lossmodels.find? (fun m => m._oid == cfg._lossmodel_oid)).bind (fun lm =>
  (db.assetcollections.find?
      (fun a => a._oid == lm._assetcollection_oid)).bind (fun _ac =>
  (vmQuery db cfg.losscategory).bind (fun _vm =>
  if env.submit1.ok = true then
    (pollLoop env.statuses1 fuel 0).bind (fun k =>
      if env.statuses1 (k + 1) ≠ "complete" then
        some (Event.submitJob 1 none none ::
          (pollEvents env.submit1.job_id env.statuses1 k ++
            [Event.statusRequest env.submit1.job_id (env.statuses1 (k + 1)),
             Event.httpRespond 200
               (RespBody.statusJson (env.statuses1 (k + 1)))]))
      else
        (waitAndFetchResults env.submit2.job_id env.statuses2 fuel).bind
          (fun bg =>
            some (Event.submitJob 1 none none ::
              (pollEvents env.submit1.job_id env.statuses1 k ++
                [Event.statusRequest env.submit1.job_id (env.statuses1 (k + 1)),
                 Event.submitJob 2 (some env.submit1.job_id) (some shakemap),
                 Event.persistLossCalculation
                   ⟨"shakemap_address", lm._oid, cfg.losscategory,
                    cfg.aggregateBy⟩] ++
                bg ++
                [Event.httpRespond 200 (RespBody.submitJson env.submit2)]))))
  else
    some [Event.submitJob 1 none none,
          Event.httpRespond 200 RespBody.emptyJson]))))

/-! ### Concrete database and remote-environment instances -/

/-- A loss config with oid 1 referencing loss model 1. -/
def exCfg : LossConfig := ⟨1, "structural", none, 1⟩

/-- A loss model with oid 1 over asset collection 1. -/
def exLM : LossModel := ⟨1, 1⟩

/-- An asset collection with oid 1. -/
def exAC : AssetCollection := ⟨1, "exposure"⟩

/-- A vulnerability model with oid 10 and the category of exCfg. -/
def exVM : VulnerabilityModel := ⟨10, "structural"⟩

/-- A minimal database on which the run handler finds all its records. -/
def exDB : DB :=
  { assetcollections := [exAC], assets := [],
    vulnerabilitymodels := [exVM], vulnerabilityfunctions := [],
    lossmodels := [exLM], lossconfigs := [exCfg],
    losscalculations := [], vmLossmodelLinks := [(10, 1)] }

/-- Remote engine: both submissions ok; the phase-1 job first reports
failed, then complete; the phase-2 job always reports complete. -/
def envA : RemoteEnv :=
  { submit1 := ⟨true, 5⟩,
    statuses1 := fun n => if n == 0 then "failed" else "complete",
    submit2 := ⟨true, 6⟩,
    statuses2 := fun _ => "complete" }

/-- Remote engine: both submissions ok; the phase-1 job first reports
complete, then failed. -/
def envB : RemoteEnv :=
  { submit1 := ⟨true, 5⟩,
    statuses1 := fun n => if n == 0 then "complete" else "failed",
    submit2 := ⟨true, 6⟩,
    statuses2 := fun _ => "complete" }

/-- Remote engine: phase-1 submission ok and the job completes, but the
phase-2 submission returns a non-ok response. -/
def envC : RemoteEnv :=
  { submit1 := ⟨true, 5⟩,
    statuses1 := fun _ => "complete",
    submit2 := ⟨false, 6⟩,
    statuses2 := fun _ => "complete" }

/-- Remote engine: phase-1 submission ok but the job never reaches a
terminal status. -/
def envStuck : RemoteEnv :=
  { submit1 := ⟨true, 5⟩,
    statuses1 := fun _ => "executing",
    submit2 := ⟨true, 6⟩,
    statuses2 := fun _ => "executing" }

/-- The LossCalculation record the run handler persists over exDB. -/
def exCalc : LossCalculationRec := ⟨"shakemap_address", 1, "structural", none⟩

/-- The full event trace of the run handler over exDB and envA. -/
def exTrA : List Event :=
  [Event.submitJob 1 none none,
   Event.statusRequest 5 "failed",
   Event.statusRequest 5 "complete",
   Event.submitJob 2 (some 5) (some "model/shapefiles.zip"),
   Event.persistLossCalculation exCalc,
   Event.statusRequest 6 "complete",
   Event.statusRequest 6 "complete",
   Event.importResults,
   Event.httpRespond 200 (RespBody.submitJson ⟨true, 6⟩)]

/-! ### Shape lemmas for the two trace functions -/

/-- Every event the polling loop emits is a status request of its job. -/
lemma mem_pollEvents {e : Event} {job : Nat} {statuses : Nat → String}
    {k : Nat} (h : e ∈ pollEvents job statuses k) :
    ∃ i, e = Event.statusRequest job (statuses i) := by
  unfold pollEvents at h
  rw [List.mem_map] at h
  obtain ⟨i, _, rfl⟩ := h
  exact ⟨i, rfl⟩

/-- Structure of every successful background run of waitAndFetchResults:
the loop exits at some request index k, one fresh status request follows,
and the import event is appended exactly when that fresh status is
complete. -/
lemma wfr_shape {job : Nat} {statuses : Nat → String} {fuel : Nat}
    {bg : List Event} (h : waitAndFetchResults job statuses fuel = some bg) :
    ∃ k, pollLoop statuses fuel 0 = some k ∧
      ((statuses (k + 1) ≠ "complete" ∧
        bg = pollEvents job statuses k ++
          [Event.statusRequest job (statuses (k + 1))]) ∨
       (statuses (k + 1) = "complete" ∧
        bg = pollEvents job statuses k ++
          [Event.statusRequest job (statuses (k + 1)),
           Event.importResults])) := by
  unfold waitAndFetchResults at h
  rw [Option.bind_eq_some] at h
  obtain ⟨k, hk, h⟩ := h
  refine ⟨k, hk, ?_⟩
  by_cases hc : statuses (k + 1) = "complete"
  · rw [if_neg (fun hne => hne hc)] at h
    exact Or.inr ⟨hc, (Option.some.inj h).symm⟩
  · rw [if_pos hc] at h
    exact Or.inl ⟨hc, (Option.some.inj h).symm⟩

/-- Structure of every completed execution of the run handler: either the
phase-1 submission was not ok and the trace is the submission plus the empty
JSON response, or the phase-1 loop exited at index k and the fresh status
request was not complete and the trace responds with that status JSON, or
the fresh status was complete and the trace continues with the phase-2
submission, the persisted record, the background events and the final
response. -/
lemma run_shape {db : DB} {env : RemoteEnv} {sm : String} {fuel : Nat}
    {tr : List Event} (h : post_calculation_run db env sm fuel = some tr) :
    (env.submit1.ok = false ∧
      tr = [Event.submitJob 1 none none,
            Event.httpRespond 200 RespBody.emptyJson]) ∨
    (∃ k, env.submit1.ok = true ∧ pollLoop env.statuses1 fuel 0 = some k ∧
      env.statuses1 (k + 1) ≠ "complete" ∧
      tr = Event.submitJob 1 none none ::
        (pollEvents env.submit1.job_id env.statuses1 k ++
          [Event.statusRequest env.submit1.job_id (env.statuses1 (k + 1)),
           Event.httpRespond 200
             (RespBody.statusJson (env.statuses1 (k + 1)))])) ∨
    (∃ k bg cfg lm, env.submit1.ok = true ∧
      pollLoop env.statuses1 fuel 0 = some k ∧
      env.statuses1 (k + 1) = "complete" ∧
      lossConfigUsed db = some cfg ∧
      db.lossmodels.find? (fun m => m._oid == cfg._lossmodel_oid) = some lm ∧
      waitAndFetchResults env.submit2.job_id env.statuses2 fuel = some bg ∧
      tr = Event.submitJob 1 none none ::
        (pollEvents env.submit1.job_id env.statuses1 k ++
          [Event.statusRequest env.submit1.job_id (env.statuses1 (k + 1)),
           Event.submitJob 2 (some env.submit1.job_id) (some sm),
           Event.persistLossCalculation
             ⟨"shakemap_address", lm._oid, cfg.losscategory,
              cfg.aggregateBy⟩] ++
          bg ++
          [Event.httpRespond 200 (RespBody.submitJson env.submit2)])) := by
  unfold post_calculation_run at h
  rw [Option.bind_eq_some] at h
  obtain ⟨cfg, hcfg, h⟩ := h
  rw [Option.bind_eq_some] at h
  obtain ⟨lm, hlm, h⟩ := h
  rw [Option.bind_eq_some] at h
  obtain ⟨ac, hac, h⟩ := h
  rw [Option.bind_eq_some] at h
  obtain ⟨vm, hvm, h⟩ := h
  by_cases hok : env.submit1.ok = true
  · rw [if_pos hok] at h
    rw [Option.bind_eq_some] at h
    obtain ⟨k, hk, h⟩ := h
    by_cases hc : env.statuses1 (k + 1) = "complete"
    · rw [if_neg (fun hne => hne hc)] at h
      rw [Option.bind_eq_some] at h
      obtain ⟨bg, hbg, h⟩ := h
      exact Or.inr (Or.inr ⟨k, bg, cfg, lm, hok, hk, hc, hcfg, hlm, hbg,
        (Option.some.inj h).symm⟩)
    · rw [if_pos hc] at h
      exact Or.inr (Or.inl ⟨k, hok, hk, hc, (Option.some.inj h).symm⟩)
  · rw [if_neg hok] at h
    exact Or.inl ⟨Bool.not_eq_true env.submit1.ok ▸ hok,
      (Option.some.inj h).symm⟩

/-! ### Polling-loop lemmas -/

/-- A polling loop that returns exits on a terminal status. -/
lemma pollLoop_terminal {statuses : Nat → String} :
    ∀ {fuel i k : Nat}, pollLoop statuses fuel i = some k →
      isTerminal (statuses k) = true := by
  intro fuel
  induction fuel with
  | zero => intro i k h; simp [pollLoop] at h
  | succ n ih =>
    intro i k h
    simp only [pollLoop] at h
    by_cases hc : isTerminal (statuses i) = true
    · rw [if_pos hc] at h
      exact (Option.some.inj h) ▸ hc
    · rw [if_neg hc] at h
      exact ih h

/-- A status stream that never reaches a terminal value makes the polling
loop spin forever: no fuel makes it return. -/
lemma pollLoop_none_of_stuck {statuses : Nat → String}
    (hno : ∀ n, isTerminal (statuses n) = false) :
    ∀ fuel i, pollLoop statuses fuel i = none := by
  intro fuel
  induction fuel with
  | zero => intro i; rfl
  | succ n ih =>
    intro i
    simp only [pollLoop]
    rw [if_neg (by simp [hno i])]
    exact ih (i + 1)

/-- As soon as some status in the stream is terminal, enough fuel makes the
polling loop return. -/
lemma pollLoop_some_of_terminal {statuses : Nat → String} :
    ∀ (m i : Nat), isTerminal (statuses (i + m)) = true →
      ∃ k, pollLoop statuses (m + 1) i = some k := by
  intro m
  induction m with
  | zero =>
    intro i h
    exact ⟨i, by simp only [pollLoop]; rw [if_pos (by simpa using h)]⟩
  | succ m ih =>
    intro i h
    by_cases hc : isTerminal (statuses i) = true
    · exact ⟨i, by simp only [pollLoop]; rw [if_pos hc]⟩
    · have hshift : i + 1 + m = i + (m + 1) := by omega
      obtain ⟨k, hk⟩ := ih (i + 1) (by rw [hshift]; exact h)
      exact ⟨k, by simp only [pollLoop]; rw [if_neg hc]; exact hk⟩

/-- The polling loop terminates for some fuel exactly when the status stream
eventually yields complete or failed. -/
lemma pollLoop_term_iff (statuses : Nat → String) :
    (∃ fuel k, pollLoop statuses fuel 0 = some k) ↔
      ∃ n, isTerminal (statuses n) = true := by
  constructor
  · rintro ⟨fuel, k, hk⟩
    exact ⟨k, pollLoop_terminal hk⟩
  · rintro ⟨n, hn⟩
    obtain ⟨k, hk⟩ := pollLoop_some_of_terminal n 0 (by simpa using hn)
    exact ⟨n + 1, k, hk⟩

/-! ### Membership characterizations over completed run traces -/

/-- If a completed run trace contains a phase-2 submission event, the run
went through the complete branch: the phase-1 loop exited, the fresh status
was complete, and the submission carries the phase-1 job id and the
shakemap file; the trace has the full phase-2 shape. -/
lemma run_submit2 {db : DB} {env : RemoteEnv} {sm : String} {fuel : Nat}
    {tr : List Event} (h : post_calculation_run db env sm fuel = some tr)
    {hj : Option Nat} {sf : Option String}
    (hmem : Event.submitJob 2 hj sf ∈ tr) :
    ∃ k bg cfg lm, env.submit1.ok = true ∧
      pollLoop env.statuses1 fuel 0 = some k ∧
      env.statuses1 (k + 1) = "complete" ∧
      lossConfigUsed db = some cfg ∧
      db.lossmodels.find? (fun m => m._oid == cfg._lossmodel_oid) = some lm ∧
      waitAndFetchResults env.submit2.job_id env.statuses2 fuel = some bg ∧
      hj = some env.submit1.job_id ∧ sf = some sm ∧
      tr = Event.submitJob 1 none none ::
        (pollEvents env.submit1.job_id env.statuses1 k ++
          [Event.statusRequest env.submit1.job_id (env.statuses1 (k + 1)),
           Event.submitJob 2 (some env.submit1.job_id) (some sm),
           Event.persistLossCalculation
             ⟨"shakemap_address", lm._oid, cfg.losscategory,
              cfg.aggregateBy⟩] ++
          bg ++
          [Event.httpRespond 200 (RespBody.submitJson env.submit2)]) := by
  rcases run_shape h with ⟨_, htr⟩ | ⟨k, _, _, _, htr⟩ |
    ⟨k, bg, cfg, lm, hok, hk, hc, hcfg, hlm, hbg, htr⟩
  · rw [htr] at hmem; simp at hmem
  · rw [htr] at hmem; simp [pollEvents] at hmem
  · have hmem2 := hmem
    rw [htr] at hmem2
    rcases wfr_shape hbg with ⟨k2, hk2, ⟨_, hbg2⟩ | ⟨_, hbg2⟩⟩ <;>
      rw [hbg2] at hmem2 <;>
      simp [pollEvents] at hmem2 <;>
      exact ⟨k, bg, cfg, lm, hok, hk, hc, hcfg, hlm, hbg,
        hmem2.1, hmem2.2, htr⟩

/-- If a completed run trace contains a persisted LossCalculation record,
that record is the one of views.py lines 462-468, built from the loaded
config and its loss model. -/
lemma run_persist {db : DB} {env : RemoteEnv} {sm : String} {fuel : Nat}
    {tr : List Event} (h : post_calculation_run db env sm fuel = some tr)
    {c : LossCalculationRec} (hmem : Event.persistLossCalculation c ∈ tr) :
    ∃ cfg lm, lossConfigUsed db = some cfg ∧
      db.lossmodels.find? (fun m => m._oid == cfg._lossmodel_oid) = some lm ∧
      c = ⟨"shakemap_address", lm._oid, cfg.losscategory, cfg.aggregateBy⟩ := by
  rcases run_shape h with ⟨_, htr⟩ | ⟨k, _, _, _, htr⟩ |
    ⟨k, bg, cfg, lm, _, _, _, hcfg, hlm, hbg, htr⟩
  · rw [htr] at hmem; simp at hmem
  · rw [htr] at hmem; simp [pollEvents] at hmem
  · rw [htr] at hmem
    rcases wfr_shape hbg with ⟨k2, hk2, ⟨_, hbg2⟩ | ⟨_, hbg2⟩⟩ <;>
      rw [hbg2] at hmem <;>
      simp [pollEvents] at hmem <;>
      exact ⟨cfg, lm, hcfg, hlm, hmem⟩

/-- Every list ending in a fixed event has that event as its getLast?. -/
lemma getLast?_ends (r : Event) (pre : List Event) :
    (pre ++ [r]).getLast? = some r := by
  rw [List.getLast?_append_cons pre r []]; rfl

/-- If a completed run trace contains the import event, the run went through
the complete branch of both phases and the trace has the full import shape:
the import is immediately preceded by the fresh phase-2 status request
returning complete and immediately followed by the final HTTP response. -/
lemma run_import {db : DB} {env : RemoteEnv} {sm : String} {fuel : Nat}
    {tr : List Event} (h : post_calculation_run db env sm fuel = some tr)
    (hmem : Event.importResults ∈ tr) :
    ∃ k k2 cfg lm, env.submit1.ok = true ∧
      pollLoop env.statuses1 fuel 0 = some k ∧
      env.statuses1 (k + 1) = "complete" ∧
      pollLoop env.statuses2 fuel 0 = some k2 ∧
      env.statuses2 (k2 + 1) = "complete" ∧
      lossConfigUsed db = some cfg ∧
      db.lossmodels.find? (fun m => m._oid == cfg._lossmodel_oid) = some lm ∧
      tr = Event.submitJob 1 none none ::
        (pollEvents env.submit1.job_id env.statuses1 k ++
          [Event.statusRequest env.submit1.job_id (env.statuses1 (k + 1)),
           Event.submitJob 2 (some env.submit1.job_id) (some sm),
           Event.persistLossCalculation
             ⟨"shakemap_address", lm._oid, cfg.losscategory,
              cfg.aggregateBy⟩] ++
          (pollEvents env.submit2.job_id env.statuses2 k2 ++
            [Event.statusRequest env.submit2.job_id (env.statuses2 (k2 + 1)),
             Event.importResults]) ++
          [Event.httpRespond 200 (RespBody.submitJson env.submit2)]) := by
  rcases run_shape h with ⟨_, htr⟩ | ⟨k, _, _, _, htr⟩ |
    ⟨k, bg, cfg, lm, hok, hk, hc, hcfg, hlm, hbg, htr⟩
  · rw [htr] at hmem; simp at hmem
  · rw [htr] at hmem; simp [pollEvents] at hmem
  · rcases wfr_shape hbg with ⟨k2, hk2, ⟨_, hbg2⟩ | ⟨hc2, hbg2⟩⟩
    · rw [htr, hbg2] at hmem
      simp [pollEvents] at hmem
    · rw [hbg2] at htr
      exact ⟨k, k2, cfg, lm, hok, hk, hc, hk2, hc2, hcfg, hlm, htr⟩

/-- C1: the claim states that the phase-2 poll-until-terminal and the
result import run as a detached task after the HTTP response of the
handler is produced, the handler never waiting for them.  The source
contradicts its own intent (a daemon thread is constructed and started at
views.py lines 473-476): the expression `target=waitAndFetchResults(...)`
calls the function before the Thread object is built, so the spawned thread
gets target None.  This theorem shows the code behaviour: the HTTP response
is the last event of every completed execution, and whenever results are
imported, importing happens in the request thread, strictly before the
response event (in fact immediately before it). -/
theorem C1_import_in_request_thread (db : DB) (env : RemoteEnv) (sm : String)
    (fuel : Nat) (tr : List Event)
    (h : post_calculation_run db env sm fuel = some tr) :
    (∃ b, tr.getLast? = some (Event.httpRespond 200 b)) ∧
    (Event.importResults ∈ tr →
      ∃ pre, tr = pre ++ [Event.importResults,
        Event.httpRespond 200 (RespBody.submitJson env.submit2)]) := by
  constructor
  · rcases run_shape h with ⟨_, htr⟩ | ⟨k, _, _, _, htr⟩ |
      ⟨k, bg, cfg, lm, _, _, _, _, _, _, htr⟩
    · exact ⟨RespBody.emptyJson, by rw [htr]; rfl⟩
    · refine ⟨RespBody.statusJson (env.statuses1 (k + 1)), ?_⟩
      have h2 : tr = (Event.submitJob 1 none none ::
          (pollEvents env.submit1.job_id env.statuses1 k ++
            [Event.statusRequest env.submit1.job_id
              (env.statuses1 (k + 1))])) ++
          [Event.httpRespond 200
            (RespBody.statusJson (env.statuses1 (k + 1)))] := by
        rw [htr]; simp
      rw [h2]; exact getLast?_ends _ _
    · refine ⟨RespBody.submitJson env.submit2, ?_⟩
      have h2 : tr = (Event.submitJob 1 none none ::
          (pollEvents env.submit1.job_id env.statuses1 k ++
            [Event.statusRequest env.submit1.job_id (env.statuses1 (k + 1)),
             Event.submitJob 2 (some env.submit1.job_id) (some sm),
             Event.persistLossCalculation
               ⟨"shakemap_address", lm._oid, cfg.losscategory,
                cfg.aggregateBy⟩] ++ bg)) ++
          [Event.httpRespond 200 (RespBody.submitJson env.submit2)] := by
        rw [htr]; simp
      rw [h2]; exact getLast?_ends _ _
  · intro hmem
    obtain ⟨k, k2, cfg, lm, _, _, _, _, _, _, _, htr⟩ := run_import h hmem
    refine ⟨Event.submitJob 1 none none ::
      (pollEvents env.submit1.job_id env.statuses1 k ++
        [Event.statusRequest env.submit1.job_id (env.statuses1 (k + 1)),
         Event.submitJob 2 (some env.submit1.job_id) (some sm),
         Event.persistLossCalculation
           ⟨"shakemap_address", lm._oid, cfg.losscategory,
            cfg.aggregateBy⟩] ++
        (pollEvents env.submit2.job_id env.statuses2 k2 ++
          [Event.statusRequest env.submit2.job_id
            (env.statuses2 (k2 + 1))])), ?_⟩
    rw [htr]; simp

/-- Witness for C1: over exDB and envA the run imports results, and the
importResults event sits directly before the final HTTP response. -/
theorem C1_import_in_request_thread_witness :
    Event.importResults ∈ exTrA ∧
    ∃ pre, exTrA = pre ++ [Event.importResults,
      Event.httpRespond 200 (RespBody.submitJson envA.submit2)] :=
  ⟨by decide,
   (C1_import_in_request_thread exDB envA "model/shapefiles.zip" 2 exTrA
     rfl).2 (by decide)⟩

/-- The trace of the run handler over exDB and envC (phase-2 submission
returns a non-ok response). -/
def exTrC : List Event :=
  [Event.submitJob 1 none none,
   Event.statusRequest 5 "complete",
   Event.statusRequest 5 "complete",
   Event.submitJob 2 (some 5) (some "model/shapefiles.zip"),
   Event.persistLossCalculation exCalc,
   Event.statusRequest 6 "complete",
   Event.statusRequest 6 "complete",
   Event.importResults,
   Event.httpRespond 200 (RespBody.submitJson ⟨false, 6⟩)]

/-- Counterexample to C2: the claim says any non-ok submission response -
phase 1 or phase 2 - aborts the remaining flow, persists no LossCalculation,
spawns no background work, and returns the empty JSON body.  Over envC the
phase-2 submission is non-ok, yet the flow continues: the LossCalculation
record is persisted, further remote status requests and the result import
still happen, and the response body is the phase-2 submission JSON rather
than the empty object. -/
theorem C2_counterexample :
    envC.submit2.ok = false ∧
    post_calculation_run exDB envC "model/shapefiles.zip" 2 = some exTrC ∧
    Event.persistLossCalculation exCalc ∈ exTrC ∧
    Event.importResults ∈ exTrC ∧
    exTrC.getLast? =
      some (Event.httpRespond 200 (RespBody.submitJson ⟨false, 6⟩)) := by
  refine ⟨rfl, rfl, by decide, by decide, rfl⟩

/-- The two-event trace of a run whose phase-1 submission is non-ok. -/
def exTrD : List Event :=
  [Event.submitJob 1 none none, Event.httpRespond 200 RespBody.emptyJson]

/-- Remote engine whose phase-1 submission returns a non-ok response. -/
def envD : RemoteEnv :=
  { submit1 := ⟨false, 5⟩,
    statuses1 := fun _ => "complete",
    submit2 := ⟨true, 6⟩,
    statuses2 := fun _ => "complete" }

/-- C2 amended: a non-ok response from the phase-1 submission aborts the
flow - the trace is exactly the submission followed by the HTTP 200 response
with the empty JSON body, so no further remote call happens, no
LossCalculation record is persisted and no background work runs.  (A non-ok
phase-2 submission response does not abort; see the counterexample.) -/
theorem C2_phase1_abort (db : DB) (env : RemoteEnv) (sm : String)
    (fuel : Nat) (tr : List Event) (hok : env.submit1.ok = false)
    (h : post_calculation_run db env sm fuel = some tr) :
    tr = [Event.submitJob 1 none none,
          Event.httpRespond 200 RespBody.emptyJson] := by
  rcases run_shape h with ⟨_, htr⟩ | ⟨k, hok1, _⟩ |
    ⟨k, bg, cfg, lm, hok1, _⟩
  · exact htr
  · rw [hok] at hok1; exact absurd hok1 (by simp)
  · rw [hok] at hok1; exact absurd hok1 (by simp)

/-- Witness for the amended C2 over exDB and envD. -/
theorem C2_phase1_abort_witness :
    envD.submit1.ok = false ∧
    exTrD = [Event.submitJob 1 none none,
             Event.httpRespond 200 RespBody.emptyJson] :=
  ⟨rfl, C2_phase1_abort exDB envD "model/shapefiles.zip" 2 exTrD rfl rfl⟩

/-- C3: ordering guarantee.  In every completed execution, every phase-2
submission event is preceded in the trace by a status request that returned
a terminal status (the phase-1 job reported terminal before phase 2 was
submitted), and the import event, when present, is immediately preceded by a
status request that returned complete - so results are imported only after
the phase-2 job reports complete, never on a failed report. -/
theorem C3_ordering (db : DB) (env : RemoteEnv) (sm : String) (fuel : Nat)
    (tr : List Event) (h : post_calculation_run db env sm fuel = some tr) :
    (∀ hj sf, Event.submitJob 2 hj sf ∈ tr →
      ∃ pre post, tr = pre ++ Event.submitJob 2 hj sf :: post ∧
        ∃ job r, Event.statusRequest job r ∈ pre ∧ isTerminal r = true) ∧
    (Event.importResults ∈ tr →
      ∃ pre post, tr = pre ++ Event.importResults :: post ∧
        ∃ job, pre.getLast? = some (Event.statusRequest job "complete")) := by
  constructor
  · intro hj sf hmem
    obtain ⟨k, bg, cfg, lm, hok, hk, hc, hcfg, hlm, hbg, hhj, hsf, htr⟩ :=
      run_submit2 h hmem
    subst hhj; subst hsf
    refine ⟨Event.submitJob 1 none none ::
        (pollEvents env.submit1.job_id env.statuses1 k ++
          [Event.statusRequest env.submit1.job_id (env.statuses1 (k + 1))]),
      Event.persistLossCalculation
          ⟨"shakemap_address", lm._oid, cfg.losscategory, cfg.aggregateBy⟩ ::
        (bg ++ [Event.httpRespond 200 (RespBody.submitJson env.submit2)]),
      ?_, env.submit1.job_id, env.statuses1 (k + 1), ?_, ?_⟩
    · rw [htr]; simp
    · simp
    · rw [hc]; rfl
  · intro hmem
    obtain ⟨k, k2, cfg, lm, hok, hk, hc, hk2, hc2, hcfg, hlm, htr⟩ :=
      run_import h hmem
    rw [hc2] at htr
    refine ⟨Event.submitJob 1 none none ::
        (pollEvents env.submit1.job_id env.statuses1 k ++
          [Event.statusRequest env.submit1.job_id (env.statuses1 (k + 1)),
           Event.submitJob 2 (some env.submit1.job_id) (some sm),
           Event.persistLossCalculation
             ⟨"shakemap_address", lm._oid, cfg.losscategory,
              cfg.aggregateBy⟩] ++
          (pollEvents env.submit2.job_id env.statuses2 k2 ++
            [Event.statusRequest env.submit2.job_id "complete"])),
      [Event.httpRespond 200 (RespBody.submitJson env.submit2)],
      ?_, env.submit2.job_id, ?_⟩
    · rw [htr]; simp
    · have hPre : Event.submitJob 1 none none ::
          (pollEvents env.submit1.job_id env.statuses1 k ++
            [Event.statusRequest env.submit1.job_id (env.statuses1 (k + 1)),
             Event.submitJob 2 (some env.submit1.job_id) (some sm),
             Event.persistLossCalculation
               ⟨"shakemap_address", lm._oid, cfg.losscategory,
                cfg.aggregateBy⟩] ++
            (pollEvents env.submit2.job_id env.statuses2 k2 ++
              [Event.statusRequest env.submit2.job_id "complete"])) =
          (Event.submitJob 1 none none ::
            (pollEvents env.submit1.job_id env.statuses1 k ++
              [Event.statusRequest env.submit1.job_id (env.statuses1 (k + 1)),
               Event.submitJob 2 (some env.submit1.job_id) (some sm),
               Event.persistLossCalculation
                 ⟨"shakemap_address", lm._oid, cfg.losscategory,
                  cfg.aggregateBy⟩] ++
              pollEvents env.submit2.job_id env.statuses2 k2)) ++
            [Event.statusRequest env.submit2.job_id "complete"] := by simp
      rw [hPre]
      exact getLast?_ends _ _

/-- Witness for C3 over exDB and envA: the trace imports results, and the
decomposition exhibits the complete status request directly before
importing. -/
theorem C3_ordering_witness :
    Event.importResults ∈ exTrA ∧
    ∃ pre post, exTrA = pre ++ Event.importResults :: post ∧
      ∃ job, pre.getLast? = some (Event.statusRequest job "complete") :=
  ⟨by decide,
   (C3_ordering exDB envA "model/shapefiles.zip" 2 exTrA rfl).2 (by decide)⟩

/-- Database exhibiting the flaw in the vulnerability-model query: the
config (oid 1) references loss model 1, but the first vulnerability model of
matching category (oid 10) is linked only to loss model 2. -/
def exDB4 : DB :=
  { assetcollections := [⟨1, "exposure"⟩], assets := [],
    vulnerabilitymodels := [⟨10, "structural"⟩, ⟨11, "structural"⟩],
    vulnerabilityfunctions := [],
    lossmodels := [⟨1, 1⟩, ⟨2, 1⟩],
    lossconfigs := [⟨1, "structural", none, 1⟩],
    losscalculations := [],
    vmLossmodelLinks := [(10, 2), (11, 1)] }

/-- Counterexample to C4: the claim says the vulnerability model selected at
views.py lines 398-401 belongs to the vulnerability models of the LossModel
referenced by the loaded LossConfig.  Over exDB4 the config references loss
model 1, yet the query selects the model with oid 10, which is linked only
to loss model 2 and not to loss model 1 - the join at line 399 ranges over
all loss models and nothing restricts it to the one of the config. -/
theorem C4_counterexample :
    lossConfigUsed exDB4 = some ⟨1, "structural", none, 1⟩ ∧
    (vmQuery exDB4 "structural").map (fun v => v._oid) = some 10 ∧
    exDB4.vmLossmodelLinks.contains (10, 1) = false := by
  refine ⟨rfl, rfl, rfl⟩

/-- C4 amended: the vulnerability model selected for the calculation has a
losscategory equal to the losscategory of the loaded LossConfig and is
linked to at least one LossModel in the database - but not necessarily to
the LossModel the LossConfig references. -/
theorem C4_selected_vm (db : DB) (cat : String) (vm : VulnerabilityModel)
    (h : vmQuery db cat = some vm) :
    vm.losscategory = cat ∧
    ∃ lm, lm ∈ db.lossmodels ∧
      db.vmLossmodelLinks.contains (vm._oid, lm._oid) = true := by
  unfold vmQuery at h
  rw [Option.map_eq_some'] at h
  obtain ⟨p, hp, hfst⟩ := h
  have hmem : p ∈ (db.vulnerabilitymodels.flatMap (fun vm0 =>
      db.lossmodels.filterMap (fun lm =>
        if db.vmLossmodelLinks.contains (vm0._oid, lm._oid)
        then some (vm0, lm) else none))).filter
      (fun q => q.1.losscategory == cat) :=
    List.mem_of_mem_head? (by rw [hp]; exact rfl)
  rw [List.mem_filter] at hmem
  obtain ⟨hjoin, hcat⟩ := hmem
  rw [List.mem_flatMap] at hjoin
  obtain ⟨vm0, hvm0, hrow⟩ := hjoin
  rw [List.mem_filterMap] at hrow
  obtain ⟨lm, hlm, hrow⟩ := hrow
  by_cases hcont : db.vmLossmodelLinks.contains (vm0._oid, lm._oid) = true
  · rw [if_pos hcont] at hrow
    have hpeq : p = (vm0, lm) := (Option.some.inj hrow).symm
    subst hpeq
    subst hfst
    simp only [] at hcat
    constructor
    · exact eq_of_beq hcat
    · exact ⟨lm, hlm, hcont⟩
  · rw [if_neg hcont] at hrow
    exact absurd hrow (by simp)

/-- Witness for the amended C4 over exDB4: the selected model has the
matching category and is linked to some loss model in the database. -/
theorem C4_selected_vm_witness :
    VulnerabilityModel.losscategory ⟨10, "structural"⟩ = "structural" ∧
    ∃ lm, lm ∈ exDB4.lossmodels ∧
      exDB4.vmLossmodelLinks.contains
        (VulnerabilityModel._oid ⟨10, "structural"⟩, lm._oid) = true :=
  C4_selected_vm exDB4 "structural" ⟨10, "structural"⟩ rfl

/-- C5: neither polling loop has a timeout or iteration bound.  For each of
the two status streams, the loop returns under some fuel exactly when the
stream eventually yields a terminal status (complete or failed); when the
stream never does, the phase-1 loop blocks the whole run handler (it
completes under no fuel even though the submission succeeded) and the
phase-2 loop blocks waitAndFetchResults the same way. -/
theorem C5_no_timeout (env : RemoteEnv) (db : DB) (sm : String) :
    ((∃ fuel k, pollLoop env.statuses1 fuel 0 = some k) ↔
      ∃ n, isTerminal (env.statuses1 n) = true) ∧
    ((∃ fuel k, pollLoop env.statuses2 fuel 0 = some k) ↔
      ∃ n, isTerminal (env.statuses2 n) = true) ∧
    ((∀ n, isTerminal (env.statuses1 n) = false) → env.submit1.ok = true →
      ∀ fuel, post_calculation_run db env sm fuel = none) ∧
    ((∀ n, isTerminal (env.statuses2 n) = false) →
      ∀ job fuel, waitAndFetchResults job env.statuses2 fuel = none) := by
  refine ⟨pollLoop_term_iff env.statuses1, pollLoop_term_iff env.statuses2,
    ?_, ?_⟩
  · intro hno hok fuel
    unfold post_calculation_run
    cases lossConfigUsed db with
    | none => rfl
    | some cfg =>
      simp only [Option.some_bind]
      cases db.lossmodels.find? (fun m => m._oid == cfg._lossmodel_oid) with
      | none => rfl
      | some lm =>
        simp only [Option.some_bind]
        cases db.assetcollections.find?
            (fun a => a._oid == lm._assetcollection_oid) with
        | none => rfl
        | some ac =>
          simp only [Option.some_bind]
          cases vmQuery db cfg.losscategory with
          | none => rfl
          | some vm =>
            simp only [Option.some_bind]
            rw [if_pos hok, pollLoop_none_of_stuck hno fuel 0]
            rfl
  · intro hno job fuel
    unfold waitAndFetchResults
    rw [pollLoop_none_of_stuck hno fuel 0]
    rfl

/-- Witness for C5: over envStuck (submission ok, status forever executing)
the run handler completes under no fuel, and neither does the background
poll of waitAndFetchResults. -/
theorem C5_no_timeout_witness :
    post_calculation_run exDB envStuck "model/shapefiles.zip" 5 = none ∧
    waitAndFetchResults 6 envStuck.statuses2 5 = none :=
  ⟨(C5_no_timeout envStuck exDB "model/shapefiles.zip").2.2.1
     (fun _ => rfl) rfl 5,
   (C5_no_timeout envStuck exDB "model/shapefiles.zip").2.2.2
     (fun _ => rfl) 6 5⟩

/-- C6: when a completed execution submits phase 2, the submission carries
exactly the job id returned by the phase-1 submission as its hazard_job_id
form field (views.py lines 430, 454), along with the shakemap file of the
request body. -/
theorem C6_hazard_job_id (db : DB) (env : RemoteEnv) (sm : String)
    (fuel : Nat) (tr : List Event)
    (h : post_calculation_run db env sm fuel = some tr)
    (hj : Option Nat) (sf : Option String)
    (hmem : Event.submitJob 2 hj sf ∈ tr) :
    hj = some env.submit1.job_id ∧ sf = some sm := by
  obtain ⟨k, bg, cfg, lm, _, _, _, _, _, _, hhj, hsf, _⟩ := run_submit2 h hmem
  exact ⟨hhj, hsf⟩

/-- Witness for C6 over exDB and envA: the phase-2 submission in the trace
carries job id 5, the id the phase-1 submission returned. -/
theorem C6_hazard_job_id_witness :
    (some 5 : Option Nat) = some envA.submit1.job_id ∧
    (some "model/shapefiles.zip" : Option String) =
      some "model/shapefiles.zip" :=
  C6_hazard_job_id exDB envA "model/shapefiles.zip" 2 exTrA rfl
    (some 5) (some "model/shapefiles.zip") (by decide)

/-- C8: the config driving a run is the record with oid 1.  First, whatever
lossConfigUsed (the primary-key lookup of views.py line 392) returns has
oid 1; second, the whole run-handler behaviour is unchanged under any
replacement of the LossConfig table that leaves that oid-1 lookup the same -
no other LossConfig record is ever read. -/
theorem C8_config_one :
    (∀ (db : DB) (cfg : LossConfig),
      lossConfigUsed db = some cfg → cfg._oid = 1) ∧
    (∀ (db : DB) (l2 : List LossConfig) (env : RemoteEnv) (sm : String)
      (fuel : Nat),
      lossConfigUsed db = lossConfigUsed { db with lossconfigs := l2 } →
      post_calculation_run db env sm fuel =
        post_calculation_run { db with lossconfigs := l2 } env sm fuel) := by
  constructor
  · intro db cfg hfind
    have hp := List.find?_some hfind
    simpa using hp
  · intro db l2 env sm fuel hagree
    unfold post_calculation_run
    rw [hagree]
    rfl

/-- A second loss config, with oid 2, that a run never reads. -/
def exCfg2 : LossConfig := ⟨2, "contents", some "postalcode", 1⟩

/-- Witness for C8: the config found over exDB has oid 1, and adding a
second config record with oid 2 leaves the run trace unchanged. -/
theorem C8_config_one_witness :
    exCfg._oid = 1 ∧
    post_calculation_run exDB envA "model/shapefiles.zip" 2 =
      post_calculation_run { exDB with lossconfigs := [exCfg, exCfg2] }
        envA "model/shapefiles.zip" 2 :=
  ⟨C8_config_one.1 exDB exCfg rfl,
   C8_config_one.2 exDB [exCfg, exCfg2] envA "model/shapefiles.zip" 2 rfl⟩

/-- C9: every LossCalculation record a completed run persists has the
literal string of views.py line 463 as its shakemapid_resourceid - the
source quotes the variable name instead of using its value, so the field
never depends on the shakemap supplied in the request body (the shakemap
parameter sm is universally quantified here and reaches only the phase-2
submission). -/
theorem C9_shakemap_literal (db : DB) (env : RemoteEnv) (sm : String)
    (fuel : Nat) (tr : List Event)
    (h : post_calculation_run db env sm fuel = some tr)
    (c : LossCalculationRec)
    (hmem : Event.persistLossCalculation c ∈ tr) :
    c.shakemapid_resourceid = "shakemap_address" := by
  obtain ⟨cfg, lm, _, _, hc⟩ := run_persist h hmem
  rw [hc]

/-- Witness for C9: the record persisted over exDB and envA, where the
request supplied the shakemap path model/shapefiles.zip, still carries the
literal. -/
theorem C9_shakemap_literal_witness :
    exCalc.shakemapid_resourceid = "shakemap_address" :=
  C9_shakemap_literal exDB envA "model/shapefiles.zip" 2 exTrA rfl exCalc
    (by decide)

/-- True when the trace contains a phase-2 submission event. -/
def hasSubmit2 (tr : List Event) : Bool :=
  tr.any (fun e => match e with
    | Event.submitJob p _ _ => p == 2
    | _ => false)

/-- True when the trace contains the result-import event. -/
def hasImport (tr : List Event) : Bool :=
  tr.any (fun e => match e with
    | Event.importResults => true
    | _ => false)

/-- The trace of the run handler over exDB and envB: the loop exits on a
complete status, but the fresh status request returns failed, so the run
stops without submitting phase 2. -/
def exTrB : List Event :=
  [Event.submitJob 1 none none,
   Event.statusRequest 5 "complete",
   Event.statusRequest 5 "failed",
   Event.httpRespond 200 (RespBody.statusJson "failed")]

/-- C10: in both polling sequences the proceed-or-stop branch is taken on a
fresh status request issued after the loop exits, not on the status that
terminated the loop.  Over envA the phase-1 loop exits at request 0 on
failed, yet the fresh request returns complete and the flow proceeds to
submit phase 2 and import results; over envB the loop exits at request 0 on
complete, yet the fresh request returns failed and the flow stops.  The
same two stream prefixes drive waitAndFetchResults to import after a
failed loop exit and to skip the import after a complete loop exit. -/
theorem C10_fresh_status_branch :
    (pollLoop envA.statuses1 2 0 = some 0 ∧ envA.statuses1 0 = "failed" ∧
      post_calculation_run exDB envA "model/shapefiles.zip" 2 = some exTrA ∧
      hasSubmit2 exTrA = true ∧ hasImport exTrA = true) ∧
    (pollLoop envB.statuses1 2 0 = some 0 ∧ envB.statuses1 0 = "complete" ∧
      post_calculation_run exDB envB "model/shapefiles.zip" 2 = some exTrB ∧
      hasSubmit2 exTrB = false ∧ hasImport exTrB = false) ∧
    (pollLoop envA.statuses1 2 0 = some 0 ∧
      waitAndFetchResults 6 envA.statuses1 2 =
        some [Event.statusRequest 6 "failed",
              Event.statusRequest 6 "complete", Event.importResults]) ∧
    (pollLoop envB.statuses1 2 0 = some 0 ∧
      waitAndFetchResults 6 envB.statuses1 2 =
        some [Event.statusRequest 6 "complete",
              Event.statusRequest 6 "failed"]) := by
  exact ⟨⟨rfl, rfl, rfl, rfl, rfl⟩, ⟨rfl, rfl, rfl, rfl, rfl⟩,
    ⟨rfl, rfl⟩, ⟨rfl, rfl⟩⟩

/-- A database with one record in each table, for exercising the list
endpoints: two assets on one site, one vulnerability function, one link. -/
def exDB7 : DB :=
  { assetcollections := [⟨1, "col"⟩],
    assets := [⟨1, 1, 7⟩, ⟨2, 1, 7⟩],
    vulnerabilitymodels := [⟨10, "structural"⟩],
    vulnerabilityfunctions := [⟨100, 10⟩],
    lossmodels := [⟨1, 1⟩],
    lossconfigs := [⟨1, "structural", none, 1⟩],
    losscalculations := [],
    vmLossmodelLinks := [(10, 1)] }

/-- Counterexample to C7: the claim says each of the four list endpoints
returns records augmented with a derived count/aggregate field.  The
LossConfig list endpoint (views.py lines 325-346) appends nothing: over
exDB7 its response entry carries exactly the four column keys of the stored
record and no derived field. -/
theorem C7_counterexample :
    get_loss_config exDB7 =
      [[("_oid", DVal.n 1), ("losscategory", DVal.s "structural"),
        ("aggregateBy", DVal.null), ("_lossmodel_oid", DVal.n 1)]] ∧
    (get_loss_config exDB7).map (fun d => d.map Prod.fst) =
      [["_oid", "losscategory", "aggregateBy", "_lossmodel_oid"]] := by
  exact ⟨rfl, rfl⟩

/-- C7 amended: the AssetCollection, VulnerabilityModel and LossModel list
endpoints return one entry per persisted record, each the serialized record
with its derived count/aggregate fields appended; the LossConfig list
endpoint returns one entry per record with no derived field; and each of
the four create endpoints returns exactly the output of the corresponding
list endpoint on the updated database. -/
theorem C7_endpoints :
    (∀ (db : DB) (i : Nat) (ac : AssetCollection),
      db.assetcollections[i]? = some ac →
      (get_exposure db)[i]? = some (ac.asdict ++
        [("assets_count", DVal.n (assetsCount db ac)),
         ("sites_count", DVal.n (sitesCount db ac))])) ∧
    (∀ (db : DB) (i : Nat) (vm : VulnerabilityModel),
      db.vulnerabilitymodels[i]? = some vm →
      (get_vulnerability db)[i]? = some (vm.asdict ++
        [("functions_count", DVal.n (functionsCount db vm))])) ∧
    (∀ (db : DB) (i : Nat) (lm : LossModel),
      db.lossmodels[i]? = some lm →
      (get_loss_model db)[i]? = some (lm.asdict ++
        [("calculations_count", DVal.n (calculationsCount db lm)),
         ("_vulnerabilitymodels_oids", DVal.arr (linkedVmOids db lm))])) ∧
    (∀ (db : DB) (i : Nat) (cfg : LossConfig),
      db.lossconfigs[i]? = some cfg →
      (get_loss_config db)[i]? = some cfg.asdict) ∧
    (∀ (db : DB) (ac : AssetCollection) (newAssets : List Asset),
      (post_exposure db ac newAssets).2 =
        get_exposure (post_exposure db ac newAssets).1) ∧
    (∀ (db : DB) (vm : VulnerabilityModel)
      (funcs : List VulnerabilityFunction),
      (post_vulnerability db vm funcs).2 =
        get_vulnerability (post_vulnerability db vm funcs).1) ∧
    (∀ (db : DB) (lm : LossModel) (vmIds : List Nat),
      (post_loss_model db lm vmIds).2 =
        get_loss_model (post_loss_model db lm vmIds).1) ∧
    (∀ (db : DB) (cfg : LossConfig),
      (post_loss_config db cfg).2 =
        get_loss_config (post_loss_config db cfg).1) := by
  refine ⟨?_, ?_, ?_, ?_, fun db ac nA => rfl, fun db vm fs => rfl,
    fun db lm ids => rfl, fun db cfg => rfl⟩
  · intro db i ac hi
    unfold get_exposure
    rw [List.getElem?_map, hi]
    rfl
  · intro db i vm hi
    unfold get_vulnerability
    rw [List.getElem?_map, hi]
    rfl
  · intro db i lm hi
    unfold get_loss_model
    rw [List.getElem?_map, hi]
    rfl
  · intro db i cfg hi
    unfold get_loss_config
    rw [List.getElem?_map, hi]
    rfl

/-- Witness for the amended C7 over exDB7: the first AssetCollection entry
carries its two derived counts, and the first LossConfig entry is the bare
serialized record. -/
theorem C7_endpoints_witness :
    (get_exposure exDB7)[0]? =
      some (AssetCollection.asdict ⟨1, "col"⟩ ++
        [("assets_count", DVal.n (assetsCount exDB7 ⟨1, "col"⟩)),
         ("sites_count", DVal.n (sitesCount exDB7 ⟨1, "col"⟩))]) ∧
    (get_loss_config exDB7)[0]? =
      some (LossConfig.asdict ⟨1, "structural", none, 1⟩) :=
  ⟨C7_endpoints.1 exDB7 0 ⟨1, "col"⟩ rfl,
   C7_endpoints.2.2.2.1 exDB7 0 ⟨1, "structural", none, 1⟩ rfl⟩
